import Mathlib

/-!
Verification of `plugins/check_mrtgtraf.c` (MRTG traffic plugin).

The definitions below are a shallow embedding of the C program:

* `Config` embeds the global configuration variables (lines 62-68);
* `strtoulNat`, `atoiInt`, `sscanfULPair` embed the C library number
  parsers as they are used by the plugin: base-10, leading whitespace
  skipped, an optional `+`/`-` sign, then the longest digit prefix, with
  0 when no digit follows; a `-`-signed value is negated with unsigned
  wraparound modulo 2^64 (`unsigned long` on the LP64 target) and an
  out-of-range magnitude is clamped to `ULONG_MAX`, as `strtoul` and
  `%lu` do;
* `readMRTGLog` embeds the log-reading loop of `main` (lines 100-140),
  including the post-loop `line <= 2` check and the undefined behaviour of
  passing a NULL `strtok` result to `strtoul`;
* `evaluate` embeds the staleness check, rate selection, unit
  normalization and threshold decision of `main` (lines 142-220);
* `processArguments` embeds `process_arguments` (lines 230-340) over a
  GNU-style option scanner: options are handled left to right, non-option
  tokens are collected in order as positionals (GNU permutation), `--`
  terminates option scanning, exact long-option names are recognised
  (abbreviated long options are not modelled), and an unknown option or a
  missing option argument yields the `'?'` / usage path.

Machine integers are modelled as `Nat` (the `unsigned long` rates and
thresholds) and `Int` (`int expire_minutes`, `time_t` arithmetic); no
operation in scope can overflow on realistic inputs, so wrap-around is not
modelled.  The `double` values produced by unit normalization are modelled
exactly: dividing an exactly-representable integer by the power of two
1024 is exact in binary floating point, so `adjustedRate` coincides with
the C `double` for every rate below 2^53, and `%0.1f` formatting is
modelled by `fmtScaled` as correct rounding (nearest, ties to even) of
that exact value to one decimal.  Trailing newlines of printed messages
are omitted uniformly.
-/

namespace CheckMrtgtraf

/-- Plugin states produced by the evaluation part of `main`
(`STATE_OK`, `STATE_WARNING`, `STATE_CRITICAL`); the UNKNOWN-classified
paths terminate through `usage` and are modelled by `RunOutcome.usageError`. -/
inductive State
  | ok
  | warning
  | critical
  deriving DecidableEq, Repr

/-- The global configuration variables of the plugin (lines 62-68). -/
structure Config where
  logFile : Option String
  expireMinutes : Int
  useAverage : Bool
  incomingWarningThreshold : Nat
  incomingCriticalThreshold : Nat
  outgoingWarningThreshold : Nat
  outgoingCriticalThreshold : Nat
  deriving DecidableEq, Repr

/-- Initial values of the globals: `log_file = NULL`, `expire_minutes = -1`,
`use_average = TRUE`, all four thresholds `0` (lines 62-68). -/
def defaultConfig : Config := ⟨none, -1, true, 0, 0, 0, 0⟩

/-- The five fields extracted from the second line of the MRTG log
(lines 80-84 of `main`). -/
structure LogRecord where
  timestamp : Nat
  averageIn : Nat
  averageOut : Nat
  maximumIn : Nat
  maximumOut : Nat
  deriving DecidableEq, Repr

/-- Longest digit prefix of a character list, with the remaining suffix. -/
def takeDigits : List Char → List Char × List Char
  | [] => ([], [])
  | c :: cs =>
    if c.isDigit then
      let (ds, rest) := takeDigits cs
      (c :: ds, rest)
    else ([], c :: cs)

/-- Value of a digit string, most significant digit first. -/
def digitsToNat (ds : List Char) : Nat :=
  ds.foldl (fun acc c => acc * 10 + (c.toNat - 48)) 0

/-- The modulus of C `unsigned long` on the LP64 target: 2^64. -/
def ulongModulus : Nat := 2 ^ 64

/-- `strtoul`'s clamp of an overflowing magnitude to `ULONG_MAX`. -/
def clampUL (v : Nat) : Nat :=
  if v < ulongModulus then v else ulongModulus - 1

/-- One `strtoul (_, NULL, 10)`-style conversion on a character list: skip
leading whitespace, optional `+`/`-` sign, longest digit prefix.  `none`
when no digit follows (no conversion performed); a `-`-signed in-range
value is negated with unsigned wraparound; a magnitude past `ULONG_MAX`
is clamped to `ULONG_MAX` (ERANGE), in which case the sign is not
applied.  Also yields the unconsumed suffix. -/
def scanULong (cs : List Char) : Option (Nat × List Char) :=
  match cs.dropWhile (fun c => c.isWhitespace) with
  | '-' :: rest =>
    match takeDigits rest with
    | ([], _) => none
    | (ds, rest2) =>
      let v := digitsToNat ds
      if v < ulongModulus then some ((ulongModulus - v) % ulongModulus, rest2)
      else some (ulongModulus - 1, rest2)
  | '+' :: rest =>
    match takeDigits rest with
    | ([], _) => none
    | (ds, rest2) => some (clampUL (digitsToNat ds), rest2)
  | cs1 =>
    match takeDigits cs1 with
    | ([], _) => none
    | (ds, rest2) => some (clampUL (digitsToNat ds), rest2)

/-- Models `strtoul (s, NULL, 10)`: one `scanULong` conversion, 0 when no
conversion could be performed. -/
def strtoulNat (s : String) : Nat :=
  match scanULong s.toList with
  | none => 0
  | some (v, _) => v

/-- Models `atoi (s)`: skip leading whitespace, optional sign, longest
digit prefix, 0 when there is none. -/
def atoiInt (s : String) : Int :=
  let cs := s.toList.dropWhile (fun c => c.isWhitespace)
  match cs with
  | '-' :: rest => - (digitsToNat (takeDigits rest).1 : Int)
  | '+' :: rest => (digitsToNat (takeDigits rest).1 : Int)
  | _ => (digitsToNat (takeDigits cs).1 : Int)

/-- Models `sscanf (s, "%lu,%lu", &a, &b)` as used on threshold pairs
(lines 287, 291): each `%lu` is a `scanULong` conversion (so it accepts
the same optional sign as `strtoul`, with the same wraparound), the
literal `,` must follow the first number directly, and each component is
`none` when its `%lu` did not match, in which case the C variable keeps
its previous value. -/
def sscanfULPair (s : String) : Option Nat × Option Nat :=
  match scanULong s.toList with
  | none => (none, none)
  | some (v1, rest1) =>
    match rest1 with
    | ',' :: rest2 =>
      match scanULong rest2 with
      | none => (some v1, none)
      | some (v2, _) => (some v1, some v2)
    | _ => (some v1, none)

/-- Splitter behind `tokenize`: `acc` holds the characters of the token
being built, in reverse. -/
def tokenizeAux (acc : List Char) : List Char → List String
  | [] => if acc = [] then [] else [String.mk acc.reverse]
  | c :: cs =>
    if c = ' ' then
      if acc = [] then tokenizeAux [] cs
      else String.mk acc.reverse :: tokenizeAux [] cs
    else tokenizeAux (c :: acc) cs

/-- Models the `strtok (buffer, " ")` token sequence of a line: maximal
runs of non-space characters (the delimiter set is exactly `" "`). -/
def tokenize (s : String) : List String :=
  tokenizeAux [] s.toList

/-- Parse the second log line (lines 114-132): five `strtok`/`strtoul`
pairs in fixed order.  `none` models the case where `strtok` runs out of
tokens, so a NULL pointer reaches `strtoul` (undefined behaviour). -/
def parseRecord (line : String) : Option LogRecord :=
  match tokenize line with
  | t1 :: t2 :: t3 :: t4 :: t5 :: _ =>
    some ⟨strtoulNat t1, strtoulNat t2, strtoulNat t3, strtoulNat t4, strtoulNat t5⟩
  | _ => none

/-- Result of the log-reading phase of `main` (lines 100-140). -/
inductive ReadOutcome
  | tooFewLines
  | nullDeref
  | record (rec : LogRecord)
  deriving DecidableEq, Repr

/-- The read loop of `main`: line 1 is skipped, line 2 is parsed, the loop
breaks once `line > 2`; afterwards `line <= 2` triggers
`usage ("Unable to process MRTG log file")`.  The final `line` counter
equals `min (number of lines) 3`, so the error fires exactly when the file
has at most two lines; with exactly two lines the second line is parsed
first, so a missing field hits the NULL `strtok` result before the
post-loop check. -/
def readMRTGLog : List String → ReadOutcome
  | [] => .tooFewLines
  | [_] => .tooFewLines
  | _ :: second :: rest =>
    match parseRecord second with
    | none => .nullDeref
    | some r => if rest = [] then .tooFewLines else .record r

/-- Unit normalization of one rate (lines 161-195): the unit label and the
divisor (1, 1024 or 1024·1024) the C code divides the rate by for that
unit. -/
def normalizeRate (rate : Nat) : String × Nat :=
  if rate < 1024 then ("B/s", 1)
  else if rate < 1024 * 1024 then ("KB/s", 1024)
  else ("MB/s", 1024 * 1024)

/-- The `double adjusted_*_rate` value (lines 164, 170, 176): the rate
divided by the selected divisor.  The rational is exact: dividing an
exactly-representable integer by a power of two is exact in binary
floating point, so this agrees with the C `double` for every rate
below 2^53. -/
def adjustedRate (rate : Nat) : ℚ :=
  (rate : ℚ) / ((normalizeRate rate).2 : ℚ)

/-- Nearest integer to `t / d` with ties to even — the correct rounding
that `printf` applies when formatting the exact value `t / d` with no
fractional digits. -/
def roundNearestEven (t d : Nat) : Nat :=
  let q := t / d
  let r2 := 2 * (t % d)
  if d < r2 then q + 1
  else if r2 < d then q
  else if q % 2 = 0 then q else q + 1

/-- `%0.1f` rendering of `rate / divisor`: one correctly rounded decimal
digit. -/
def fmtScaled (rate divisor : Nat) : String :=
  let n := roundNearestEven (10 * rate) divisor
  toString (n / 10) ++ "." ++ toString (n % 10)

/-- `(use_average == TRUE) ? "Ave" : "Max"` (lines 201, 216). -/
def rateLabel (useAverage : Bool) : String :=
  if useAverage then "Ave" else "Max"

/-- The incoming rate selected by aggregation mode (lines 152-158). -/
def selectedIncoming (cfg : Config) (rec : LogRecord) : Nat :=
  if cfg.useAverage then rec.averageIn else rec.maximumIn

/-- The outgoing rate selected by aggregation mode (lines 152-159). -/
def selectedOutgoing (cfg : Config) (rec : LogRecord) : Nat :=
  if cfg.useAverage then rec.averageOut else rec.maximumOut

/-- The message template shared by the OK, WARNING and CRITICAL branches
(lines 200-203, 208-211, 215-218). -/
def trafficBody (useAverage : Bool) (incomingRate outgoingRate : Nat) : String :=
  rateLabel useAverage ++ ". In = " ++ fmtScaled incomingRate (normalizeRate incomingRate).2 ++
    " " ++ (normalizeRate incomingRate).1 ++ ", " ++ rateLabel useAverage ++ ". Out = " ++
    fmtScaled outgoingRate (normalizeRate outgoingRate).2 ++ " " ++ (normalizeRate outgoingRate).1

/-- The threshold decision (lines 197-212): strict `>` against the raw
selected rates. -/
def rateStatus (cfg : Config) (incomingRate outgoingRate : Nat) : State :=
  if incomingRate > cfg.incomingCriticalThreshold ∨
      outgoingRate > cfg.outgoingCriticalThreshold then .critical
  else if incomingRate > cfg.incomingWarningThreshold ∨
      outgoingRate > cfg.outgoingWarningThreshold then .warning
  else .ok

/-- Non-stale evaluation (lines 151-220): status from `rateStatus`, and the
printed line, which is the shared template, prefixed with
`"Traffic ok - "` exactly when the result stayed `STATE_OK`. -/
def rateEval (cfg : Config) (rec : LogRecord) : State × String :=
  (rateStatus cfg (selectedIncoming cfg rec) (selectedOutgoing cfg rec),
   if rateStatus cfg (selectedIncoming cfg rec) (selectedOutgoing cfg rec) = State.ok then
     "Traffic ok - " ++ trafficBody cfg.useAverage (selectedIncoming cfg rec) (selectedOutgoing cfg rec)
   else
     trafficBody cfg.useAverage (selectedIncoming cfg rec) (selectedOutgoing cfg rec))

/-- The staleness guard (lines 144-146):
`expire_minutes > 0 && (current_time - timestamp) > (expire_minutes * 60)`. -/
def isStale (cfg : Config) (timestamp : Nat) (currentTime : Int) : Bool :=
  decide (cfg.expireMinutes > 0) &&
    decide (currentTime - (timestamp : Int) > cfg.expireMinutes * 60)

/-- The expiry message (lines 146-149); C `/` on a positive difference
truncates, i.e. `Int.tdiv`. -/
def expiredMessage (age : Int) : String :=
  "MRTG data has expired (" ++ toString (Int.tdiv age 60) ++ " minutes old)"

/-- The evaluator of `main` (lines 142-220) as a pure function of the
configuration, the log record and the current time. -/
def evaluate (cfg : Config) (rec : LogRecord) (currentTime : Int) : State × String :=
  if isStale cfg rec.timestamp currentTime then
    (State.warning, expiredMessage (currentTime - (rec.timestamp : Int)))
  else
    rateEval cfg rec

/-- The `switch (c)` body of `process_arguments` for option characters that
carry an argument (lines 273-293); characters with no `case` (such as the
`'v'` produced by the `--variable`/`--verbose` long options) fall through
with no effect. -/
def applyOpt (ch : Char) (optarg : String) (cfg : Config) : Config :=
  if ch = 'F' then { cfg with logFile := some optarg }
  else if ch = 'e' then { cfg with expireMinutes := atoiInt optarg }
  else if ch = 'a' then { cfg with useAverage := if optarg = "MAX" then false else true }
  else if ch = 'c' then
    let (i, o) := sscanfULPair optarg
    { cfg with
      incomingCriticalThreshold := i.getD cfg.incomingCriticalThreshold,
      outgoingCriticalThreshold := o.getD cfg.outgoingCriticalThreshold }
  else if ch = 'w' then
    let (i, o) := sscanfULPair optarg
    { cfg with
      incomingWarningThreshold := i.getD cfg.incomingWarningThreshold,
      outgoingWarningThreshold := o.getD cfg.outgoingWarningThreshold }
  else cfg

/-- Option characters of the optstring `"hVF:e:a:c:w:"` that require an
argument. -/
def shortTakesArg (ch : Char) : Bool :=
  ch == 'F' || ch == 'e' || ch == 'a' || ch == 'c' || ch == 'w'

/-- One step of the option scanner. -/
inductive StepRes
  | usage
  | exitOk
  | cont (cfg : Config) (rest : List String)
  deriving DecidableEq, Repr

/-- Handle one short-option token (already stripped of its leading `-`).
`'h'`/`'V'` exit immediately with `STATE_OK`; an unknown character or a
missing required argument makes `getopt` return `'?'`, which the switch
turns into `usage ("Invalid argument")`. -/
def scanShort (cfg : Config) (cluster : List Char) (rest : List String) : StepRes :=
  match cluster with
  | [] => .cont cfg rest
  | ch :: more =>
    if ch == 'h' || ch == 'V' then .exitOk
    else if shortTakesArg ch then
      match more, rest with
      | [], [] => .usage
      | [], arg :: rest2 => .cont (applyOpt ch arg cfg) rest2
      | m1 :: m, _ => .cont (applyOpt ch (String.mk (m1 :: m)) cfg) rest
    else .usage

/-- One entry of the `longopts` table (lines 237-248). -/
structure LongOpt where
  name : String
  requiresArg : Bool
  val : Char
  deriving DecidableEq, Repr

/-- The `longopts` table (lines 237-248).  Note the duplicated `'v'`:
`--variable` takes an argument, `--verbose` does not; neither has a
`case` in the switch. -/
def longopts : List LongOpt :=
  [⟨"logfile", true, 'F'⟩, ⟨"expires", true, 'e'⟩, ⟨"aggregation", true, 'a'⟩,
   ⟨"variable", true, 'v'⟩, ⟨"critical", true, 'c'⟩, ⟨"warning", true, 'w'⟩,
   ⟨"verbose", false, 'v'⟩, ⟨"version", false, 'V'⟩, ⟨"help", false, 'h'⟩]

/-- Split a long-option body at its first `=`: the name, and the value
characters when an `=` is present. -/
def splitAtEq : List Char → List Char × Option (List Char)
  | [] => ([], none)
  | c :: cs =>
    if c = '=' then ([], some cs)
    else
      let (nm, v) := splitAtEq cs
      (c :: nm, v)

/-- Handle one long-option token (already stripped of its leading `--`):
exact-name lookup in `longopts`, argument from `=value` or from the next
token; a no-argument option given `=value`, an unknown name, or a missing
required argument yields `'?'`. -/
def scanLong (cfg : Config) (body : List Char) (rest : List String) : StepRes :=
  let (nmChars, eqVal) := splitAtEq body
  match longopts.find? (fun lo => lo.name == String.mk nmChars) with
  | none => .usage
  | some lo =>
    if lo.requiresArg then
      match eqVal with
      | some v => .cont (applyOpt lo.val (String.mk v) cfg) rest
      | none =>
        match rest with
        | arg :: rest2 => .cont (applyOpt lo.val arg cfg) rest2
        | [] => .usage
    else
      match eqVal with
      | some _ => .usage
      | none =>
        if lo.val == 'h' || lo.val == 'V' then .exitOk
        else .cont cfg rest

/-- Result of the whole `getopt` loop. -/
inductive ScanResult
  | usageInvalid
  | exitOk
  | done (cfg : Config) (positionals : List String)
  deriving DecidableEq, Repr

/-- The `getopt_long` loop (lines 263-303) over the token list, with GNU
permutation modelled by collecting non-option tokens in order; `--` stops
option scanning; a lone `-` is a positional.  The fuel only bounds the
loop and always suffices when it starts at one past the token count, since
every iteration consumes at least one token. -/
def scanTokens : Nat → Config → List String → List String → ScanResult
  | 0, cfg, pos, rest => .done cfg (pos.reverse ++ rest)
  | _ + 1, cfg, pos, [] => .done cfg pos.reverse
  | fuel + 1, cfg, pos, tok :: rest =>
    match tok.toList with
    | ['-', '-'] => .done cfg (pos.reverse ++ rest)
    | '-' :: '-' :: b1 :: body =>
      match scanLong cfg (b1 :: body) rest with
      | .usage => .usageInvalid
      | .exitOk => .exitOk
      | .cont cfg2 rest2 => scanTokens fuel cfg2 pos rest2
    | '-' :: c1 :: cluster =>
      match scanShort cfg (c1 :: cluster) rest with
      | .usage => .usageInvalid
      | .exitOk => .exitOk
      | .cont cfg2 rest2 => scanTokens fuel cfg2 pos rest2
    | _ => scanTokens fuel cfg (tok :: pos) rest

/-- The old-style rewriting pass (lines 254-261): `-to`→`-t`, `-wt`→`-w`,
`-ct`→`-c`. -/
def rewriteOldStyle (tok : String) : String :=
  if tok = "-to" then "-t"
  else if tok = "-wt" then "-w"
  else if tok = "-ct" then "-c"
  else tok

/-- One conditional positional slot (pattern of lines 306-337): consume the
next token only when the guard on the current configuration holds. -/
def step (cond : Config → Bool) (set : Config → String → Config) :
    Config × List String → Config × List String
  | (cfg, []) => (cfg, [])
  | (cfg, p :: rest) => if cond cfg then (set cfg p, rest) else (cfg, p :: rest)

/-- Positional slot 1 (lines 306-308): log file, only while unset. -/
def posLog : Config × List String → Config × List String :=
  step (fun c => c.logFile.isNone) (fun c p => { c with logFile := some p })

/-- Positional slot 2 (lines 310-312): expiry, only while it is `-1`. -/
def posExpire : Config × List String → Config × List String :=
  step (fun c => c.expireMinutes == -1) (fun c p => { c with expireMinutes := atoiInt p })

/-- Positional slot 3 (lines 314-321): the token itself decides; `MAX` or
`AVG` is consumed, anything else is left for the threshold slots. -/
def posStepAgg : Config × List String → Config × List String
  | (cfg, []) => (cfg, [])
  | (cfg, p :: rest) =>
    if p = "MAX" then ({ cfg with useAverage := false }, rest)
    else if p = "AVG" then ({ cfg with useAverage := true }, rest)
    else (cfg, p :: rest)

/-- Positional slot 4 (lines 323-325): incoming warning, only while 0. -/
def posIW : Config × List String → Config × List String :=
  step (fun c => c.incomingWarningThreshold == 0)
    (fun c p => { c with incomingWarningThreshold := strtoulNat p })

/-- Positional slot 5 (lines 327-329): incoming critical, only while 0. -/
def posIC : Config × List String → Config × List String :=
  step (fun c => c.incomingCriticalThreshold == 0)
    (fun c p => { c with incomingCriticalThreshold := strtoulNat p })

/-- Positional slot 6 (lines 331-333): outgoing warning, only while 0. -/
def posOW : Config × List String → Config × List String :=
  step (fun c => c.outgoingWarningThreshold == 0)
    (fun c p => { c with outgoingWarningThreshold := strtoulNat p })

/-- Positional slot 7 (lines 335-337): outgoing critical, only while 0. -/
def posOC : Config × List String → Config × List String :=
  step (fun c => c.outgoingCriticalThreshold == 0)
    (fun c p => { c with outgoingCriticalThreshold := strtoulNat p })

/-- The legacy positional fallback chain of `process_arguments`
(lines 305-337), applied to the non-option tokens in order. -/
def applyPositionals (cfg : Config) (ps : List String) : Config :=
  (posOC (posOW (posIC (posIW (posStepAgg (posExpire (posLog (cfg, ps)))))))).1

/-- `validate_arguments` (lines 346-350): unconditionally `OK`. -/
def validateArguments (_ : Config) : Bool := true

/-- Outcome of `process_arguments` as observed by `main` (lines 92-93). -/
inductive ArgsOutcome
  | error
  | usageInvalid
  | exitOk
  | parsed (cfg : Config)
  deriving DecidableEq, Repr

/-- `process_arguments` (lines 230-340): `ERROR` when fewer than two argv
entries; otherwise the rewrite pass, the option loop, the positional
fallback chain, and `validate_arguments`. -/
def processArguments (args : List String) : ArgsOutcome :=
  match args with
  | [] => .error
  | _ :: _ =>
    match scanTokens ((args.map rewriteOldStyle).length + 1) defaultConfig []
        (args.map rewriteOldStyle) with
    | .usageInvalid => .usageInvalid
    | .exitOk => .exitOk
    | .done cfg pos =>
      if validateArguments (applyPositionals cfg pos) then .parsed (applyPositionals cfg pos)
      else .error

/-- Observable outcome of one whole invocation. -/
inductive RunOutcome
  | usageError (message : String)
  | exitOk
  | undefinedBehavior
  | finished (state : State) (message : String)
  deriving DecidableEq, Repr

/-- The post-argument part of `main` on the contents of the log file. -/
def runOnLog (cfg : Config) (fileLines : List String) (currentTime : Int) : RunOutcome :=
  match readMRTGLog fileLines with
  | .tooFewLines => .usageError "Unable to process MRTG log file"
  | .nullDeref => .undefinedBehavior
  | .record rec =>
    let (st, msg) := evaluate cfg rec currentTime
    .finished st msg

/-- `main` (lines 70-223): argument processing, then `fopen (log_file)` —
a NULL `log_file` reaching `fopen` is undefined behaviour — then the read
loop and the evaluator.  `fs` maps a path to the lines of the file, or
`none` when `fopen` fails. -/
def mainRun (args : List String) (fs : String → Option (List String)) (currentTime : Int) :
    RunOutcome :=
  match processArguments args with
  | .error => .usageError "Invalid command arguments supplied"
  | .usageInvalid => .usageError "Invalid argument"
  | .exitOk => .exitOk
  | .parsed cfg =>
    match cfg.logFile with
    | none => .undefinedBehavior
    | some path =>
      match fs path with
      | none => .usageError "Unable to open MRTG log file"
      | some fileLines => runOnLog cfg fileLines currentTime

/-- Helper: the status component of a non-stale evaluation, characterised
by the three threshold comparisons of lines 197-212. -/
theorem evaluate_fst_characterisation (cfg : Config) (rec : LogRecord) (t : Int)
    (h : isStale cfg rec.timestamp t = false) :
    ((evaluate cfg rec t).1 = State.critical ↔
      selectedIncoming cfg rec > cfg.incomingCriticalThreshold ∨
        selectedOutgoing cfg rec > cfg.outgoingCriticalThreshold) ∧
    ((evaluate cfg rec t).1 = State.warning ↔
      ¬(selectedIncoming cfg rec > cfg.incomingCriticalThreshold ∨
          selectedOutgoing cfg rec > cfg.outgoingCriticalThreshold) ∧
        (selectedIncoming cfg rec > cfg.incomingWarningThreshold ∨
          selectedOutgoing cfg rec > cfg.outgoingWarningThreshold)) ∧
    ((evaluate cfg rec t).1 = State.ok ↔
      ¬(selectedIncoming cfg rec > cfg.incomingCriticalThreshold ∨
          selectedOutgoing cfg rec > cfg.outgoingCriticalThreshold) ∧
        ¬(selectedIncoming cfg rec > cfg.incomingWarningThreshold ∨
          selectedOutgoing cfg rec > cfg.outgoingWarningThreshold)) := by
  unfold evaluate
  rw [h]
  simp only [Bool.false_eq_true, if_false]
  unfold rateEval rateStatus
  by_cases hc : selectedIncoming cfg rec > cfg.incomingCriticalThreshold ∨
      selectedOutgoing cfg rec > cfg.outgoingCriticalThreshold
  · simp [hc]
  · by_cases hw : selectedIncoming cfg rec > cfg.incomingWarningThreshold ∨
        selectedOutgoing cfg rec > cfg.outgoingWarningThreshold
    · simp [hc, hw]
    · simp [hc, hw]

/-- C1: when the staleness check does not trigger, the status is CRITICAL
iff the raw selected incoming rate strictly exceeds the incoming critical
threshold or the raw selected outgoing rate strictly exceeds the outgoing
critical threshold; otherwise WARNING iff a raw rate strictly exceeds its
warning threshold; otherwise OK.  The comparisons are strict and use the
raw (unscaled) rates. -/
theorem c1_status_decision (cfg : Config) (rec : LogRecord) (t : Int)
    (h : isStale cfg rec.timestamp t = false) :
    ((evaluate cfg rec t).1 = State.critical ↔
      selectedIncoming cfg rec > cfg.incomingCriticalThreshold ∨
        selectedOutgoing cfg rec > cfg.outgoingCriticalThreshold) ∧
    ((evaluate cfg rec t).1 = State.warning ↔
      ¬(selectedIncoming cfg rec > cfg.incomingCriticalThreshold ∨
          selectedOutgoing cfg rec > cfg.outgoingCriticalThreshold) ∧
        (selectedIncoming cfg rec > cfg.incomingWarningThreshold ∨
          selectedOutgoing cfg rec > cfg.outgoingWarningThreshold)) ∧
    ((evaluate cfg rec t).1 = State.ok ↔
      ¬(selectedIncoming cfg rec > cfg.incomingCriticalThreshold ∨
          selectedOutgoing cfg rec > cfg.outgoingCriticalThreshold) ∧
        ¬(selectedIncoming cfg rec > cfg.incomingWarningThreshold ∨
          selectedOutgoing cfg rec > cfg.outgoingWarningThreshold)) :=
  evaluate_fst_characterisation cfg rec t h

/-- C1 witness: incoming rate 20 equal to the critical threshold 20 and
above the warning threshold 10 yields WARNING, not CRITICAL. -/
theorem c1_status_decision_witness :
    (evaluate ⟨none, -1, true, 10, 20, 10, 20⟩ ⟨100, 20, 0, 0, 0⟩ 0).1 = State.warning :=
  ((c1_status_decision ⟨none, -1, true, 10, 20, 10, 20⟩ ⟨100, 20, 0, 0, 0⟩ 0
    (by decide)).2.1).2 (by decide)

/-- C3: with `expire_minutes > 0` and an age strictly above
`expire_minutes * 60` seconds the result is WARNING with the age reported
in whole minutes (truncating division by 60), independent of every
threshold; with `expire_minutes ≤ 0` (including the unset default `-1`)
the staleness check never fires and the rate evaluation decides. -/
theorem c3_staleness (cfg : Config) (rec : LogRecord) (t : Int) :
    (0 < cfg.expireMinutes → cfg.expireMinutes * 60 < t - (rec.timestamp : Int) →
      evaluate cfg rec t =
        (State.warning,
         "MRTG data has expired (" ++ toString (Int.tdiv (t - (rec.timestamp : Int)) 60) ++
           " minutes old)")) ∧
    (cfg.expireMinutes ≤ 0 → evaluate cfg rec t = rateEval cfg rec) := by
  constructor
  · intro h1 h2
    have hs : isStale cfg rec.timestamp t = true := by
      unfold isStale
      simp only [Bool.and_eq_true, decide_eq_true_eq]
      exact ⟨h1, h2⟩
    unfold evaluate
    rw [hs]
    simp [expiredMessage]
  · intro h1
    have hs : isStale cfg rec.timestamp t = false := by
      unfold isStale
      simp only [Bool.and_eq_false_iff, decide_eq_false_iff_not, not_lt]
      left
      exact h1
    unfold evaluate
    rw [hs]
    simp

/-- C3 witness: expiry 5 minutes, record age 600 seconds, reported as
10 minutes regardless of the (huge) thresholds; and the default `-1`
disables the check. -/
theorem c3_staleness_witness :
    (0 < (⟨none, 5, true, 9999, 9999, 9999, 9999⟩ : Config).expireMinutes ∧
      evaluate ⟨none, 5, true, 9999, 9999, 9999, 9999⟩ ⟨100, 500, 600, 700, 800⟩ 700 =
        (State.warning,
         "MRTG data has expired (" ++
           toString (Int.tdiv (700 - (((⟨100, 500, 600, 700, 800⟩ : LogRecord).timestamp : Nat) : Int)) 60) ++
           " minutes old)")) ∧
    (defaultConfig.expireMinutes ≤ 0 ∧
      evaluate defaultConfig ⟨100, 500, 600, 700, 800⟩ 700 =
        rateEval defaultConfig ⟨100, 500, 600, 700, 800⟩) :=
  ⟨⟨by decide,
    (c3_staleness ⟨none, 5, true, 9999, 9999, 9999, 9999⟩ ⟨100, 500, 600, 700, 800⟩ 700).1
      (by decide) (by decide)⟩,
   ⟨by decide,
    (c3_staleness defaultConfig ⟨100, 500, 600, 700, 800⟩ 700).2 (by decide)⟩⟩

/-- C4: the reported unit is B/s iff the rate is below 1024, KB/s iff it
is in [1024, 1048576), MB/s iff it is at least 1048576, and the reported
(floating-point, exactly modelled) value is the rate divided by 1, 1024
or 1048576 respectively. -/
theorem c4_unit_normalization (r : Nat) :
    ((normalizeRate r).1 = "B/s" ↔ r < 1024) ∧
    ((normalizeRate r).1 = "KB/s" ↔ 1024 ≤ r ∧ r < 1048576) ∧
    ((normalizeRate r).1 = "MB/s" ↔ 1048576 ≤ r) ∧
    (r < 1024 → adjustedRate r = (r : ℚ)) ∧
    (1024 ≤ r → r < 1048576 → adjustedRate r = (r : ℚ) / 1024) ∧
    (1048576 ≤ r → adjustedRate r = (r : ℚ) / 1048576) := by
  by_cases h1 : r < 1024
  · have h2 : r < 1024 * 1024 := by omega
    refine ⟨?_, ?_, ?_, ?_, ?_, ?_⟩ <;> simp [normalizeRate, adjustedRate, h1, h2]
  · by_cases h2 : r < 1024 * 1024
    · refine ⟨?_, ?_, ?_, ?_, ?_, ?_⟩ <;> simp [normalizeRate, adjustedRate, h1, h2]
      omega
    · refine ⟨?_, ?_, ?_, ?_, ?_, ?_⟩ <;> simp [normalizeRate, adjustedRate, h1, h2]
      omega

/-- C4 witness: one rate in each band, with the value equation
instantiated there. -/
theorem c4_unit_normalization_witness :
    ((500 : Nat) < 1024 ∧ adjustedRate 500 = ((500 : Nat) : ℚ)) ∧
    (1024 ≤ (2048 : Nat) ∧ (2048 : Nat) < 1048576 ∧
      adjustedRate 2048 = ((2048 : Nat) : ℚ) / 1024) ∧
    (1048576 ≤ (2097152 : Nat) ∧ adjustedRate 2097152 = ((2097152 : Nat) : ℚ) / 1048576) :=
  ⟨⟨by decide, (c4_unit_normalization 500).2.2.2.1 (by decide)⟩,
   ⟨by decide, by decide, (c4_unit_normalization 2048).2.2.2.2.1 (by decide) (by decide)⟩,
   ⟨by decide, (c4_unit_normalization 2097152).2.2.2.2.2 (by decide)⟩⟩

/-- C5: the `-a` option selects maximum mode exactly for the value
`"MAX"`; the default is average mode; in average mode the evaluation does
not depend on the maximum fields and in maximum mode it does not depend on
the average fields; and one record with differing field pairs yields OK
under average mode but CRITICAL under maximum mode. -/
theorem c5_aggregation :
    (∀ (s : String) (cfg : Config), ((applyOpt 'a' s cfg).useAverage = false ↔ s = "MAX")) ∧
    defaultConfig.useAverage = true ∧
    (∀ (cfg : Config) (rec : LogRecord) (t : Int) (x y : Nat), cfg.useAverage = true →
      evaluate cfg rec t =
        evaluate cfg ⟨rec.timestamp, rec.averageIn, rec.averageOut, x, y⟩ t) ∧
    (∀ (cfg : Config) (rec : LogRecord) (t : Int) (x y : Nat), cfg.useAverage = false →
      evaluate cfg rec t =
        evaluate cfg ⟨rec.timestamp, x, y, rec.maximumIn, rec.maximumOut⟩ t) ∧
    (evaluate ⟨none, -1, true, 0, 0, 0, 0⟩ ⟨100, 0, 0, 5, 5⟩ 0).1 = State.ok ∧
    (evaluate ⟨none, -1, false, 0, 0, 0, 0⟩ ⟨100, 0, 0, 5, 5⟩ 0).1 = State.critical := by
  refine ⟨?_, rfl, ?_, ?_, by decide, by decide⟩
  · intro s cfg
    unfold applyOpt
    rw [if_neg (by decide), if_neg (by decide), if_pos rfl]
    by_cases hs : s = "MAX" <;> simp [hs]
  · intro cfg rec t x y h
    unfold evaluate isStale rateEval rateStatus trafficBody selectedIncoming selectedOutgoing
    simp [h]
  · intro cfg rec t x y h
    unfold evaluate isStale rateEval rateStatus trafficBody selectedIncoming selectedOutgoing
    simp [h]

/-- C5 witness: the mode-independence conjuncts instantiated at concrete
configurations and records. -/
theorem c5_aggregation_witness :
    evaluate ⟨none, -1, true, 1, 2, 3, 4⟩ ⟨0, 1, 2, 3, 4⟩ 5 =
      evaluate ⟨none, -1, true, 1, 2, 3, 4⟩ ⟨0, 1, 2, 9, 9⟩ 5 ∧
    evaluate ⟨none, -1, false, 1, 2, 3, 4⟩ ⟨0, 1, 2, 3, 4⟩ 5 =
      evaluate ⟨none, -1, false, 1, 2, 3, 4⟩ ⟨0, 8, 8, 3, 4⟩ 5 :=
  ⟨c5_aggregation.2.2.1 ⟨none, -1, true, 1, 2, 3, 4⟩ ⟨0, 1, 2, 3, 4⟩ 5 9 9 rfl,
   c5_aggregation.2.2.2.1 ⟨none, -1, false, 1, 2, 3, 4⟩ ⟨0, 1, 2, 3, 4⟩ 5 8 8 rfl⟩

/-- C7 counterexample: the invocation `-e 5` resolves no log file, yet
argument processing succeeds (no usage error), and the run proceeds to
the file-access stage where `fopen` receives the NULL `log_file`
(undefined behaviour) — not a usage exit before file access. -/
theorem c7_counterexample :
    processArguments ["-e", "5"] = ArgsOutcome.parsed ⟨none, 5, true, 0, 0, 0, 0⟩ ∧
    mainRun ["-e", "5"] (fun _ => none) 0 = RunOutcome.undefinedBehavior := by decide

/-- C7 (amended): `process_arguments` returns the ERROR that triggers the
`"Invalid command arguments supplied"` usage exit exactly when no
arguments are given; an unknown option yields the `"Invalid argument"`
usage exit; everything else — `validate_arguments` accepts every
configuration — succeeds, even when a numeric argument fails to parse
(it is silently treated as 0) or no log file is resolved. -/
theorem c7_argument_failures :
    (∀ args : List String, processArguments args = ArgsOutcome.error ↔ args = []) ∧
    processArguments ["mrtg.log", "junk"] =
      ArgsOutcome.parsed ⟨some "mrtg.log", 0, true, 0, 0, 0, 0⟩ ∧
    processArguments ["-q"] = ArgsOutcome.usageInvalid := by
  refine ⟨?_, by decide, by decide⟩
  intro args
  cases args with
  | nil => simp [processArguments]
  | cons a l =>
    unfold processArguments
    split
    · simp_all
    · split <;> simp [validateArguments]

/-- Slot 1 of the positional chain preserves every field other than the
log file unconditionally, and the log file whenever it is already set. -/
theorem posLog_keep (x : Config × List String) :
    (x.1.logFile ≠ none → (posLog x).1.logFile = x.1.logFile) ∧
    (posLog x).1.expireMinutes = x.1.expireMinutes ∧
    (posLog x).1.incomingWarningThreshold = x.1.incomingWarningThreshold ∧
    (posLog x).1.incomingCriticalThreshold = x.1.incomingCriticalThreshold ∧
    (posLog x).1.outgoingWarningThreshold = x.1.outgoingWarningThreshold ∧
    (posLog x).1.outgoingCriticalThreshold = x.1.outgoingCriticalThreshold := by
  obtain ⟨c, ps⟩ := x
  cases ps with
  | nil => exact ⟨fun _ => rfl, rfl, rfl, rfl, rfl, rfl⟩
  | cons p rest =>
    cases hc : c.logFile <;> simp [posLog, step, hc]

/-- Slot 2 preserves every field other than the expiry unconditionally,
and the expiry whenever it differs from the default `-1`. -/
theorem posExpire_keep (x : Config × List String) :
    (posExpire x).1.logFile = x.1.logFile ∧
    (x.1.expireMinutes ≠ -1 → (posExpire x).1.expireMinutes = x.1.expireMinutes) ∧
    (posExpire x).1.incomingWarningThreshold = x.1.incomingWarningThreshold ∧
    (posExpire x).1.incomingCriticalThreshold = x.1.incomingCriticalThreshold ∧
    (posExpire x).1.outgoingWarningThreshold = x.1.outgoingWarningThreshold ∧
    (posExpire x).1.outgoingCriticalThreshold = x.1.outgoingCriticalThreshold := by
  obtain ⟨c, ps⟩ := x
  cases ps with
  | nil => exact ⟨rfl, fun _ => rfl, rfl, rfl, rfl, rfl⟩
  | cons p rest =>
    by_cases hc : c.expireMinutes = -1 <;> simp [posExpire, step, hc]

/-- The aggregation slot only ever changes the mode flag. -/
theorem posStepAgg_keep (x : Config × List String) :
    (posStepAgg x).1.logFile = x.1.logFile ∧
    (posStepAgg x).1.expireMinutes = x.1.expireMinutes ∧
    (posStepAgg x).1.incomingWarningThreshold = x.1.incomingWarningThreshold ∧
    (posStepAgg x).1.incomingCriticalThreshold = x.1.incomingCriticalThreshold ∧
    (posStepAgg x).1.outgoingWarningThreshold = x.1.outgoingWarningThreshold ∧
    (posStepAgg x).1.outgoingCriticalThreshold = x.1.outgoingCriticalThreshold := by
  obtain ⟨c, ps⟩ := x
  cases ps with
  | nil => exact ⟨rfl, rfl, rfl, rfl, rfl, rfl⟩
  | cons p rest =>
    by_cases h1 : p = "MAX" <;> by_cases h2 : p = "AVG" <;> simp [posStepAgg, h1, h2]

/-- Slot 4 preserves every field other than the incoming warning
threshold unconditionally, and that threshold whenever it is nonzero. -/
theorem posIW_keep (x : Config × List String) :
    (posIW x).1.logFile = x.1.logFile ∧
    (posIW x).1.expireMinutes = x.1.expireMinutes ∧
    (x.1.incomingWarningThreshold ≠ 0 →
      (posIW x).1.incomingWarningThreshold = x.1.incomingWarningThreshold) ∧
    (posIW x).1.incomingCriticalThreshold = x.1.incomingCriticalThreshold ∧
    (posIW x).1.outgoingWarningThreshold = x.1.outgoingWarningThreshold ∧
    (posIW x).1.outgoingCriticalThreshold = x.1.outgoingCriticalThreshold := by
  obtain ⟨c, ps⟩ := x
  cases ps with
  | nil => exact ⟨rfl, rfl, fun _ => rfl, rfl, rfl, rfl⟩
  | cons p rest =>
    by_cases hc : c.incomingWarningThreshold = 0 <;> simp [posIW, step, hc]

/-- Slot 5: as `posIW_keep`, for the incoming critical threshold. -/
theorem posIC_keep (x : Config × List String) :
    (posIC x).1.logFile = x.1.logFile ∧
    (posIC x).1.expireMinutes = x.1.expireMinutes ∧
    (posIC x).1.incomingWarningThreshold = x.1.incomingWarningThreshold ∧
    (x.1.incomingCriticalThreshold ≠ 0 →
      (posIC x).1.incomingCriticalThreshold = x.1.incomingCriticalThreshold) ∧
    (posIC x).1.outgoingWarningThreshold = x.1.outgoingWarningThreshold ∧
    (posIC x).1.outgoingCriticalThreshold = x.1.outgoingCriticalThreshold := by
  obtain ⟨c, ps⟩ := x
  cases ps with
  | nil => exact ⟨rfl, rfl, rfl, fun _ => rfl, rfl, rfl⟩
  | cons p rest =>
    by_cases hc : c.incomingCriticalThreshold = 0 <;> simp [posIC, step, hc]

/-- Slot 6: as `posIW_keep`, for the outgoing warning threshold. -/
theorem posOW_keep (x : Config × List String) :
    (posOW x).1.logFile = x.1.logFile ∧
    (posOW x).1.expireMinutes = x.1.expireMinutes ∧
    (posOW x).1.incomingWarningThreshold = x.1.incomingWarningThreshold ∧
    (posOW x).1.incomingCriticalThreshold = x.1.incomingCriticalThreshold ∧
    (x.1.outgoingWarningThreshold ≠ 0 →
      (posOW x).1.outgoingWarningThreshold = x.1.outgoingWarningThreshold) ∧
    (posOW x).1.outgoingCriticalThreshold = x.1.outgoingCriticalThreshold := by
  obtain ⟨c, ps⟩ := x
  cases ps with
  | nil => exact ⟨rfl, rfl, rfl, rfl, fun _ => rfl, rfl⟩
  | cons p rest =>
    by_cases hc : c.outgoingWarningThreshold = 0 <;> simp [posOW, step, hc]

/-- Slot 7: as `posIW_keep`, for the outgoing critical threshold. -/
theorem posOC_keep (x : Config × List String) :
    (posOC x).1.logFile = x.1.logFile ∧
    (posOC x).1.expireMinutes = x.1.expireMinutes ∧
    (posOC x).1.incomingWarningThreshold = x.1.incomingWarningThreshold ∧
    (posOC x).1.incomingCriticalThreshold = x.1.incomingCriticalThreshold ∧
    (posOC x).1.outgoingWarningThreshold = x.1.outgoingWarningThreshold ∧
    (x.1.outgoingCriticalThreshold ≠ 0 →
      (posOC x).1.outgoingCriticalThreshold = x.1.outgoingCriticalThreshold) := by
  obtain ⟨c, ps⟩ := x
  cases ps with
  | nil => exact ⟨rfl, rfl, rfl, rfl, rfl, fun _ => rfl⟩
  | cons p rest =>
    by_cases hc : c.outgoingCriticalThreshold = 0 <;> simp [posOC, step, hc]

/-- The whole positional chain never overwrites a non-default value:
a set log file, an expiry other than `-1`, and any nonzero threshold
survive unchanged. -/
theorem applyPositionals_keep (cfg : Config) (ps : List String) :
    (cfg.logFile ≠ none → (applyPositionals cfg ps).logFile = cfg.logFile) ∧
    (cfg.expireMinutes ≠ -1 → (applyPositionals cfg ps).expireMinutes = cfg.expireMinutes) ∧
    (cfg.incomingWarningThreshold ≠ 0 →
      (applyPositionals cfg ps).incomingWarningThreshold = cfg.incomingWarningThreshold) ∧
    (cfg.incomingCriticalThreshold ≠ 0 →
      (applyPositionals cfg ps).incomingCriticalThreshold = cfg.incomingCriticalThreshold) ∧
    (cfg.outgoingWarningThreshold ≠ 0 →
      (applyPositionals cfg ps).outgoingWarningThreshold = cfg.outgoingWarningThreshold) ∧
    (cfg.outgoingCriticalThreshold ≠ 0 →
      (applyPositionals cfg ps).outgoingCriticalThreshold = cfg.outgoingCriticalThreshold) := by
  have L1 := posLog_keep (cfg, ps)
  have L2 := posExpire_keep (posLog (cfg, ps))
  have L3 := posStepAgg_keep (posExpire (posLog (cfg, ps)))
  have L4 := posIW_keep (posStepAgg (posExpire (posLog (cfg, ps))))
  have L5 := posIC_keep (posIW (posStepAgg (posExpire (posLog (cfg, ps)))))
  have L6 := posOW_keep (posIC (posIW (posStepAgg (posExpire (posLog (cfg, ps))))))
  have L7 := posOC_keep (posOW (posIC (posIW (posStepAgg (posExpire (posLog (cfg, ps)))))))
  unfold applyPositionals
  refine ⟨?_, ?_, ?_, ?_, ?_, ?_⟩
  · intro h
    rw [L7.1, L6.1, L5.1, L4.1, L3.1, L2.1, L1.1 h]
  · intro h
    have hE : (posLog (cfg, ps)).1.expireMinutes ≠ -1 := by
      rw [L1.2.1]; exact h
    rw [L7.2.1, L6.2.1, L5.2.1, L4.2.1, L3.2.1, L2.2.1 hE, L1.2.1]
  · intro h
    have hW : (posStepAgg (posExpire (posLog (cfg, ps)))).1.incomingWarningThreshold ≠ 0 := by
      rw [L3.2.2.1, L2.2.2.1, L1.2.2.1]; exact h
    rw [L7.2.2.1, L6.2.2.1, L5.2.2.1, L4.2.2.1 hW, L3.2.2.1, L2.2.2.1, L1.2.2.1]
  · intro h
    have hC : (posIW (posStepAgg (posExpire (posLog (cfg, ps))))).1.incomingCriticalThreshold ≠ 0 := by
      rw [L4.2.2.2.1, L3.2.2.2.1, L2.2.2.2.1, L1.2.2.2.1]; exact h
    rw [L7.2.2.2.1, L6.2.2.2.1, L5.2.2.2.1 hC, L4.2.2.2.1, L3.2.2.2.1, L2.2.2.2.1, L1.2.2.2.1]
  · intro h
    have hO : (posIC (posIW (posStepAgg (posExpire (posLog (cfg, ps)))))).1.outgoingWarningThreshold ≠ 0 := by
      rw [L5.2.2.2.2.1, L4.2.2.2.2.1, L3.2.2.2.2.1, L2.2.2.2.2.1, L1.2.2.2.2.1]; exact h
    rw [L7.2.2.2.2.1, L6.2.2.2.2.1 hO, L5.2.2.2.2.1, L4.2.2.2.2.1, L3.2.2.2.2.1,
      L2.2.2.2.2.1, L1.2.2.2.2.1]
  · intro h
    have hP : (posOW (posIC (posIW (posStepAgg (posExpire (posLog (cfg, ps))))))).1.outgoingCriticalThreshold ≠ 0 := by
      rw [L6.2.2.2.2.2, L5.2.2.2.2.2, L4.2.2.2.2.2, L3.2.2.2.2.2, L2.2.2.2.2.2,
        L1.2.2.2.2.2]; exact h
    rw [L7.2.2.2.2.2 hP, L6.2.2.2.2.2, L5.2.2.2.2.2, L4.2.2.2.2.2, L3.2.2.2.2.2,
      L2.2.2.2.2.2, L1.2.2.2.2.2]

/-- C9: each positional slot is consumed only while its configuration
value still has the default (log file unset, expiry `-1`, threshold 0), so
non-default values set by flags are never overwritten; and concretely, a
nonzero `-w` incoming value survives while the positional tokens shift to
the later threshold slots, whereas `-w 0,0` leaves the thresholds
overwritable by positionals. -/
theorem c9_positional_defaults :
    (∀ (cfg : Config) (ps : List String),
      (cfg.logFile ≠ none → (applyPositionals cfg ps).logFile = cfg.logFile) ∧
      (cfg.expireMinutes ≠ -1 → (applyPositionals cfg ps).expireMinutes = cfg.expireMinutes) ∧
      (cfg.incomingWarningThreshold ≠ 0 →
        (applyPositionals cfg ps).incomingWarningThreshold = cfg.incomingWarningThreshold) ∧
      (cfg.incomingCriticalThreshold ≠ 0 →
        (applyPositionals cfg ps).incomingCriticalThreshold = cfg.incomingCriticalThreshold) ∧
      (cfg.outgoingWarningThreshold ≠ 0 →
        (applyPositionals cfg ps).outgoingWarningThreshold = cfg.outgoingWarningThreshold) ∧
      (cfg.outgoingCriticalThreshold ≠ 0 →
        (applyPositionals cfg ps).outgoingCriticalThreshold = cfg.outgoingCriticalThreshold)) ∧
    processArguments ["-w", "3,0", "mylog", "5", "AVG", "8", "9", "10"] =
      ArgsOutcome.parsed ⟨some "mylog", 5, true, 3, 8, 9, 10⟩ ∧
    processArguments ["-w", "0,0", "mylog", "5", "AVG", "7", "8", "9", "10"] =
      ArgsOutcome.parsed ⟨some "mylog", 5, true, 7, 8, 9, 10⟩ :=
  ⟨fun cfg ps => applyPositionals_keep cfg ps, by decide, by decide⟩

/-- C9 witness: a configuration with every value non-default passes the
whole positional chain unchanged. -/
theorem c9_positional_defaults_witness :
    (applyPositionals ⟨some "f", 7, true, 1, 2, 3, 4⟩
      ["a", "b", "c", "d", "e", "g", "h"]).logFile = some "f" ∧
    (applyPositionals ⟨some "f", 7, true, 1, 2, 3, 4⟩
      ["a", "b", "c", "d", "e", "g", "h"]).expireMinutes = 7 ∧
    (applyPositionals ⟨some "f", 7, true, 1, 2, 3, 4⟩
      ["a", "b", "c", "d", "e", "g", "h"]).incomingWarningThreshold = 1 ∧
    (applyPositionals ⟨some "f", 7, true, 1, 2, 3, 4⟩
      ["a", "b", "c", "d", "e", "g", "h"]).incomingCriticalThreshold = 2 ∧
    (applyPositionals ⟨some "f", 7, true, 1, 2, 3, 4⟩
      ["a", "b", "c", "d", "e", "g", "h"]).outgoingWarningThreshold = 3 ∧
    (applyPositionals ⟨some "f", 7, true, 1, 2, 3, 4⟩
      ["a", "b", "c", "d", "e", "g", "h"]).outgoingCriticalThreshold = 4 :=
  ⟨(c9_positional_defaults.1 ⟨some "f", 7, true, 1, 2, 3, 4⟩
      ["a", "b", "c", "d", "e", "g", "h"]).1 (by decide),
   (c9_positional_defaults.1 ⟨some "f", 7, true, 1, 2, 3, 4⟩
      ["a", "b", "c", "d", "e", "g", "h"]).2.1 (by decide),
   (c9_positional_defaults.1 ⟨some "f", 7, true, 1, 2, 3, 4⟩
      ["a", "b", "c", "d", "e", "g", "h"]).2.2.1 (by decide),
   (c9_positional_defaults.1 ⟨some "f", 7, true, 1, 2, 3, 4⟩
      ["a", "b", "c", "d", "e", "g", "h"]).2.2.2.1 (by decide),
   (c9_positional_defaults.1 ⟨some "f", 7, true, 1, 2, 3, 4⟩
      ["a", "b", "c", "d", "e", "g", "h"]).2.2.2.2.1 (by decide),
   (c9_positional_defaults.1 ⟨some "f", 7, true, 1, 2, 3, 4⟩
      ["a", "b", "c", "d", "e", "g", "h"]).2.2.2.2.2 (by decide)⟩

/-- C10: with all four thresholds at the default 0 and no staleness, the
result is OK iff both selected rates are exactly 0; any strictly positive
selected rate gives CRITICAL, and WARNING is impossible. -/
theorem c10_zero_thresholds (cfg : Config) (rec : LogRecord) (t : Int)
    (hz : cfg.incomingWarningThreshold = 0 ∧ cfg.incomingCriticalThreshold = 0 ∧
      cfg.outgoingWarningThreshold = 0 ∧ cfg.outgoingCriticalThreshold = 0)
    (h : isStale cfg rec.timestamp t = false) :
    ((evaluate cfg rec t).1 = State.ok ↔
      selectedIncoming cfg rec = 0 ∧ selectedOutgoing cfg rec = 0) ∧
    ((evaluate cfg rec t).1 = State.critical ↔
      0 < selectedIncoming cfg rec ∨ 0 < selectedOutgoing cfg rec) ∧
    (evaluate cfg rec t).1 ≠ State.warning := by
  obtain ⟨hd, hc, hok⟩ := evaluate_fst_characterisation cfg rec t h
  refine ⟨?_, ?_, ?_⟩
  · rw [hok, hz.1, hz.2.1, hz.2.2.1, hz.2.2.2]
    omega
  · rw [hd, hz.2.1, hz.2.2.2]
  · intro hw
    rw [hc, hz.1, hz.2.1, hz.2.2.1, hz.2.2.2] at hw
    omega

/-- C2 counterexample: a file consisting of exactly a header line and one
well-formed data line is rejected through the UNKNOWN-classified
`"Unable to process MRTG log file"` usage path (`line <= 2` holds after
the read loop), so two lines are not sufficient for a normal
evaluation. -/
theorem c2_counterexample :
    runOnLog defaultConfig ["header", "100 500 600 700 800"] 110 =
      RunOutcome.usageError "Unable to process MRTG log file" := by decide

/-- C2 (amended): the `"Unable to process MRTG log file"` error triggers
exactly when the file has at most two lines (when exactly two, provided
the second line parses — a second line with fewer than five fields hits
the NULL-pointer undefined behaviour first); a normal evaluation needs at
least three lines, and the single consulted record is parsed from the
second line. -/
theorem c2_line_count (l1 l2 : String) (rest : List String) :
    (readMRTGLog (l1 :: l2 :: rest) = ReadOutcome.tooFewLines ↔
      rest = [] ∧ (parseRecord l2).isSome = true) ∧
    (∀ r : LogRecord, readMRTGLog (l1 :: l2 :: rest) = ReadOutcome.record r ↔
      rest ≠ [] ∧ parseRecord l2 = some r) ∧
    readMRTGLog [l1] = ReadOutcome.tooFewLines ∧
    readMRTGLog ([] : List String) = ReadOutcome.tooFewLines := by
  refine ⟨?_, ?_, rfl, rfl⟩
  · cases hp : parseRecord l2 <;> cases rest <;> simp [readMRTGLog, hp]
  · intro r
    cases hp : parseRecord l2 <;> cases rest <;> simp [readMRTGLog, hp]

/-- C6 counterexample: a second line with the non-numeric field `"abc"`
is not rejected; the field silently parses as 0 and a full (here
CRITICAL) evaluation is produced. -/
theorem c6_counterexample :
    runOnLog defaultConfig ["header", "100 abc 600 700 800", "x"] 110 =
      RunOutcome.finished State.critical "Ave. In = 0.0 B/s, Ave. Out = 600.0 B/s" := by
  decide

/-- C6 (amended): a second line with at least five whitespace-separated
tokens always yields a record and, with a third line present, a full
evaluation — no field is validated: each is converted with `strtoul`
semantics (optional sign, longest digit prefix, 0 when no digits, a
`-`-signed value wrapped modulo 2^64), as the three conversion samples
state concretely; fewer than five tokens make a NULL `strtok` result
reach `strtoul` (undefined behaviour), not a clean UNKNOWN error. -/
theorem c6_no_field_validation (l1 l2 : String) (rest : List String) :
    ((5 ≤ (tokenize l2).length → (parseRecord l2).isSome = true) ∧
    ((tokenize l2).length < 5 → readMRTGLog (l1 :: l2 :: rest) = ReadOutcome.nullDeref) ∧
    (5 ≤ (tokenize l2).length → rest ≠ [] →
      ∃ r : LogRecord, readMRTGLog (l1 :: l2 :: rest) = ReadOutcome.record r ∧
        parseRecord l2 = some r)) ∧
    (strtoulNat "abc" = 0 ∧ strtoulNat "+5" = 5 ∧ strtoulNat "-5" = 2 ^ 64 - 5) := by
  refine ⟨?_, by decide, by decide, by decide⟩
  rcases ht : tokenize l2 with _ | ⟨t1, _ | ⟨t2, _ | ⟨t3, _ | ⟨t4, _ | ⟨t5, ts⟩⟩⟩⟩⟩ <;>
    refine ⟨?_, ?_, ?_⟩ <;>
    simp only [parseRecord, readMRTGLog, ht, List.length_nil, List.length_cons] <;>
    first
    | (intro h; omega)
    | (intro h1 h2
       exact ⟨⟨strtoulNat t1, strtoulNat t2, strtoulNat t3, strtoulNat t4, strtoulNat t5⟩,
         by cases rest <;> simp_all [readMRTGLog, parseRecord, ht], rfl⟩)
    | simp

/-- C6 witness: the amended behaviour instantiated on a line whose second
field is non-numeric, in a three-line file. -/
theorem c6_no_field_validation_witness :
    5 ≤ (tokenize "100 abc 600 700 800").length ∧
    (["x"] : List String) ≠ [] ∧
    ∃ r : LogRecord,
      readMRTGLog ["header", "100 abc 600 700 800", "x"] = ReadOutcome.record r ∧
        parseRecord "100 abc 600 700 800" = some r :=
  ⟨by decide, by decide,
   (c6_no_field_validation "header" "100 abc 600 700 800" ["x"]).1.2.2 (by decide) (by decide)⟩

/-- C8 counterexample: the concrete input named by the claim — the
two-line log content with `expire_minutes = 0`, average mode, all
thresholds 0 and current time 110 — does not produce CRITICAL with the
claimed message: the whole run terminates through the
`"Unable to process MRTG log file"` usage path, because the read loop
rejects two-line files. -/
theorem c8_counterexample :
    runOnLog { defaultConfig with expireMinutes := 0 } ["header", "100 500 600 700 800"] 110 =
      RunOutcome.usageError "Unable to process MRTG log file" := by decide

/-- C8 (amended): every non-stale evaluation prints the single template
`"<label>. In = <value> <unit>, <label>. Out = <value> <unit>"` with
label `"Ave"` in average mode and `"Max"` in maximum mode and the values
rounded to one decimal place, prefixed with `"Traffic ok - "` exactly
when the status is OK; and the claim's concrete example behaves as
claimed once the log file contains a third line. -/
theorem c8_message_template :
    (∀ (cfg : Config) (rec : LogRecord) (t : Int), isStale cfg rec.timestamp t = false →
      (evaluate cfg rec t).2 =
        (if (evaluate cfg rec t).1 = State.ok then "Traffic ok - " else "") ++
          trafficBody cfg.useAverage (selectedIncoming cfg rec) (selectedOutgoing cfg rec)) ∧
    rateLabel true = "Ave" ∧ rateLabel false = "Max" ∧
    runOnLog { defaultConfig with expireMinutes := 0 } ["header", "100 500 600 700 800", "x"] 110 =
      RunOutcome.finished State.critical "Ave. In = 500.0 B/s, Ave. Out = 600.0 B/s" := by
  refine ⟨?_, rfl, rfl, by decide⟩
  intro cfg rec t h
  unfold evaluate
  rw [h]
  simp only [Bool.false_eq_true, if_false]
  unfold rateEval
  by_cases hs :
      rateStatus cfg (selectedIncoming cfg rec) (selectedOutgoing cfg rec) = State.ok <;>
    simp [hs]

/-- C8 witness: the template conjunct instantiated on the claim's record
under average mode. -/
theorem c8_message_template_witness :
    (evaluate { defaultConfig with expireMinutes := 0 } ⟨100, 500, 600, 700, 800⟩ 110).2 =
      (if (evaluate { defaultConfig with expireMinutes := 0 } ⟨100, 500, 600, 700, 800⟩ 110).1 =
          State.ok then "Traffic ok - " else "") ++
        trafficBody true
          (selectedIncoming { defaultConfig with expireMinutes := 0 } ⟨100, 500, 600, 700, 800⟩)
          (selectedOutgoing { defaultConfig with expireMinutes := 0 } ⟨100, 500, 600, 700, 800⟩) :=
  c8_message_template.1 { defaultConfig with expireMinutes := 0 } ⟨100, 500, 600, 700, 800⟩ 110
    (by decide)

/-- C10 witness: a record with positive selected rates under all-zero
thresholds is CRITICAL, not WARNING. -/
theorem c10_zero_thresholds_witness :
    ((evaluate defaultConfig ⟨100, 500, 600, 700, 800⟩ 110).1 = State.critical ↔
      0 < selectedIncoming defaultConfig ⟨100, 500, 600, 700, 800⟩ ∨
        0 < selectedOutgoing defaultConfig ⟨100, 500, 600, 700, 800⟩) ∧
    (evaluate defaultConfig ⟨100, 500, 600, 700, 800⟩ 110).1 ≠ State.warning :=
  ⟨(c10_zero_thresholds defaultConfig ⟨100, 500, 600, 700, 800⟩ 110
      ⟨rfl, rfl, rfl, rfl⟩ (by decide)).2.1,
   (c10_zero_thresholds defaultConfig ⟨100, 500, 600, 700, 800⟩ 110
      ⟨rfl, rfl, rfl, rfl⟩ (by decide)).2.2⟩

end CheckMrtgtraf
